import Mathlib

/-!
Verification development for the RTP receiver module
(src/src/modules/rtp/module-rtp-recv.c).

The pure logic of the module is shallowly embedded below: the per-packet
ingestion callback (rtpoll_work_cb), the adaptive rate controller embedded
in it, the session registry driven by SAP announcement events
(session_new / sap_event_cb), and the periodic death sweep
(check_death_event_cb).  Machine integers are modelled as Nat / Int with
explicit reductions modulo 2^32 / 2^64 where the C code truncates.

Collaborator code that is not part of this repository snapshot's src/
tree (pa_memblockq, pa_smoother, pa_bytes_to_usec) is modelled from the
spec; those definitions carry a `Modelled from the spec:` doc comment.
-/

namespace RtpRecv

/-- module-rtp-recv.c line 73: `MEMBLOCKQ_MAXLENGTH (1024*1024*40)`. -/
def MEMBLOCKQ_MAXLENGTH : Nat := 1024 * 1024 * 40

/-- module-rtp-recv.c line 74: `MAX_SESSIONS 16`. -/
def MAX_SESSIONS : Nat := 16

/-- module-rtp-recv.c line 75: `DEATH_TIMEOUT 20` (seconds). -/
def DEATH_TIMEOUT : Int := 20

/-- module-rtp-recv.c line 76: `RATE_UPDATE_INTERVAL (5*PA_USEC_PER_SEC)`. -/
def RATE_UPDATE_INTERVAL : Nat := 5 * 1000000

/-- module-rtp-recv.c line 77: `LATENCY_USEC (500*PA_USEC_PER_MSEC)`. -/
def LATENCY_USEC : Nat := 500 * 1000

/-- 2^32, the wraparound modulus of `uint32_t` values (ssrc, rtp timestamp,
sample rate). -/
def U32 : Nat := 4294967296

/-- 2^64, the wraparound modulus of `uint64_t` / `pa_usec_t` values. -/
def U64 : Nat := 18446744073709551616

/-- The C idiom `(k < 0 ? -k : k)` from module-rtp-recv.c line 236. -/
def cabs (x : Int) : Int := if x < 0 then -x else x

/-- module-rtp-recv.c lines 232-239 (rtpoll_work_cb): signed delta between
the received timestamp and the expected timestamp `offset`, computed
directly (`k`) and across a single 32-bit wraparound (`j`); the variant
with the smaller absolute magnitude is chosen. -/
def ts_delta (offset timestamp : Nat) : Int :=
  if cabs ((timestamp : Int) - (offset : Int)) <
     cabs ((U32 : Int) - (offset : Int) + (timestamp : Int)) then
    (timestamp : Int) - (offset : Int)
  else
    (U32 : Int) - (offset : Int) + (timestamp : Int)

/-- Modelled from the spec: the jitter buffer (`pa_memblockq`,
pulsecore/memblockq.c, not under src/).  Spec section 3: "an ordered byte
queue with an absolute write cursor and read cursor, bounded by a maximum
length, pre-seeded with silence, supporting relative seeks of the write
cursor".  `data` is the log of written bytes, newest first, keyed by
absolute byte index; indices not in the log read as silence (0).
`stored` is the occupancy: the number of payload bytes currently held. -/
structure Memblockq where
  read_index : Int
  write_index : Int
  maxlength : Nat
  stored : Nat
  data : List (Int × Nat)
deriving Repr, DecidableEq

/-- The log entries produced by writing `bytes` starting at absolute
index `w`. -/
def writeLog : Int → List Nat → List (Int × Nat)
  | _, [] => []
  | w, b :: bs => (w, b) :: writeLog (w + 1) bs

/-- The byte visible at absolute index `i` of a write log: the newest
write at that index, or silence (0) if the index was never written. -/
def readAt : List (Int × Nat) → Int → Nat
  | [], _ => 0
  | (j, b) :: rest, i => if i = j then b else readAt rest i

/-- Modelled from the spec: `pa_memblockq_seek(q, offset, PA_SEEK_RELATIVE)`
moves the write cursor by the given signed byte amount. -/
def pa_memblockq_seek_relative (q : Memblockq) (offset : Int) : Memblockq :=
  { q with write_index := q.write_index + offset }

/-- Modelled from the spec: `pa_memblockq_push` appends the payload bytes
at the write cursor and advances it, failing (returning `none`, the C
`-1`) when the buffer is full, i.e. when accepting the payload would push
the occupancy past `maxlength`. -/
def pa_memblockq_push (q : Memblockq) (payload : List Nat) : Option Memblockq :=
  if q.maxlength < q.stored + payload.length then
    none
  else
    some { q with
           data := writeLog q.write_index payload ++ q.data,
           write_index := q.write_index + (payload.length : Int),
           stored := q.stored + payload.length }

/-- module-rtp-recv.c lines 247-250 (rtpoll_work_cb): push the payload;
on queue overrun log a warning (the returned Bool) and advance the write
cursor by the chunk length instead. -/
def push_or_seek (q : Memblockq) (payload : List Nat) : Memblockq × Bool :=
  match pa_memblockq_push q payload with
  | some q2 => (q2, false)
  | none => (pa_memblockq_seek_relative q (payload.length : Int), true)

/-- Modelled from the spec: `pa_bytes_to_usec` converts a byte count of
the stream into playback time units: bytes / frame_size frames, at `rate`
frames per second, in microseconds. -/
def pa_bytes_to_usec (bytes frame_size rate : Nat) : Nat :=
  bytes / frame_size * 1000000 / rate

/-- One decoded transport packet, as left in `s->rtp_context` by
`pa_rtp_recv`: stream identifier (ssrc), 32-bit timestamp, payload type
and the payload bytes (the memchunk). -/
structure RtpPacket where
  ssrc : Nat
  timestamp : Nat
  payload_type : Nat
  payload : List Nat
deriving Repr, DecidableEq

/-- The ingestion-relevant state of `struct session`
(module-rtp-recv.c lines 85-109).  `payload` is
`sdp_info.payload` (the configured payload type), `offset` is the
expected timestamp, `timestamp` the atomically accessed last-seen
second (`pa_atomic_t timestamp`), `smoother` the list of
(now, write-position-usec) samples recorded via `pa_smoother_put`,
newest first, `frame_size` the value stored in the rtp context, and
`rate` the sink input's sample rate used for usec conversions. -/
structure Session where
  payload : Nat
  first_packet : Bool
  ssrc : Nat
  offset : Nat
  frame_size : Nat
  rate : Nat
  memblockq : Memblockq
  smoother : List (Nat × Nat)
  timestamp : Int
deriving Repr, DecidableEq

/-- Result of one run of the ingestion callback: the new session state,
the C return value (0 = packet dropped / nothing done, 1 = packet
processed), and whether the overrun warning and the packet-loop warning
were logged. -/
structure IngestResult where
  s : Session
  ret : Int
  overrun : Bool
  loop_warning : Bool
deriving Repr, DecidableEq

/-- module-rtp-recv.c lines 209-259 (rtpoll_work_cb), the per-packet part:
payload-type filtering (line 212), first-packet ssrc binding and foreign
ssrc filtering (lines 217-230), timestamp reconciliation and relative
seek (lines 232-241), smoother sample (line 245), push with overrun
handling (lines 247-250), expected-timestamp advance (line 257) and the
atomic last-seen store (line 259).  `cookie` is
`s->userdata->module->core->cookie`, the local loop-detection token;
`now_usec` / `now_sec` are the two views of `pa_rtclock_get(&now)`.  The
periodic rate controller (lines 261-311) is modelled separately by
`rate_update`, taking the smoother output as an input. -/
def rtpoll_work_cb (cookie now_usec : Nat) (now_sec : Int)
    (s : Session) (pkt : RtpPacket) : IngestResult :=
  if s.payload ≠ pkt.payload_type then
    { s := s, ret := 0, overrun := false, loop_warning := false }
  else if s.first_packet = true ∧ s.ssrc ≠ pkt.ssrc then
    { s := s, ret := 0, overrun := false, loop_warning := false }
  else
    let s1 := if s.first_packet = true then s
              else { s with first_packet := true, ssrc := pkt.ssrc,
                            offset := pkt.timestamp }
    let lw := s.first_packet = false ∧ pkt.ssrc = cookie
    let q1 := pa_memblockq_seek_relative s1.memblockq
                (ts_delta s1.offset pkt.timestamp * (s.frame_size : Int))
    let sample := (now_usec,
      pa_bytes_to_usec ((q1.write_index.emod (U64 : Int)).toNat)
        s.frame_size s.rate)
    let pushed := push_or_seek q1 pkt.payload
    { s := { s1 with
             memblockq := pushed.1,
             smoother := sample :: s1.smoother,
             offset := (pkt.timestamp +
                        (pkt.payload.length / s.frame_size) % U32) % U32,
             timestamp := now_sec },
      ret := 1,
      overrun := pushed.2,
      loop_warning := decide lw }

/-- Folding the ingestion callback over a packet list (successive
readiness events of one session). -/
def run_ingest (cookie now_usec : Nat) (now_sec : Int)
    (s : Session) (pkts : List RtpPacket) : Session :=
  pkts.foldl (fun st pkt => (rtpoll_work_cb cookie now_usec now_sec st pkt).s) s

/-- Result of one run of the adaptive rate controller: the new
`sink_input->sample_spec.rate`, the rate handed to
`pa_resampler_set_input_rate`, whether the "rate fix is too large"
anomaly message was logged, and the intermediate quantities. -/
structure RateUpdateResult where
  rate : Nat
  resampler_rate : Nat
  anomaly : Bool
  latency : Nat
  fix : Nat
  fix_samples : Nat
deriving Repr, DecidableEq

/-- module-rtp-recv.c lines 262-310 (rtpoll_work_cb), the adaptive rate
controller body.  Inputs: `wi` is the smoothed write position
(`pa_smoother_get`), `ri` the read index in usec, `render_delay` and
`sink_delay` the collaborator latencies, `intended_latency` the target
and `rate` the current `sample_spec.rate` (a `uint32_t`).  The
`fix * rate` product is `uint64_t` arithmetic and the result is cast to
`unsigned` (32-bit); the rate adjustment is `uint32_t` arithmetic.  The
anomaly test is `fix_samples > rate * .20` computed in double precision
in C, modelled exactly as `5 * fix_samples > rate`.  Note that the C code
only logs when the anomaly test fires; it applies the rate adjustment
unconditionally (lines 296-306). -/
def rate_update (wi ri render_delay sink_delay intended_latency rate : Nat) :
    RateUpdateResult :=
  let ri2 := if render_delay + sink_delay < ri
             then ri - (render_delay + sink_delay) else 0
  let latency := if wi < ri2 then 0 else wi - ri2
  let fix := if latency < intended_latency
             then intended_latency - latency else latency - intended_latency
  let fix_samples := (fix * rate % U64) / RATE_UPDATE_INTERVAL % U32
  let new_rate := if latency < intended_latency
                  then (rate + (U32 - fix_samples)) % U32
                  else (rate + fix_samples) % U32
  { rate := new_rate,
    resampler_rate := new_rate,
    anomaly := decide (rate < 5 * fix_samples),
    latency := latency,
    fix := fix,
    fix_samples := fix_samples }

/-- Errors of the session-creation path, from the spec's error taxonomy
(section 7); the C code logs and `goto fail`s at the corresponding
points of `session_new` (module-rtp-recv.c lines 402-512). -/
inductive CreationError where
  | CapacityExceeded
  | DestinationNotFound
  | SocketError
  | SinkInputFailed
deriving Repr, DecidableEq

/-- The registry state: the `by_origin` hashmap together with the
session list, abstracted as an association list from origin to the
session's atomically accessed last-seen second.  `n_sessions` is kept in
lockstep with insert/remove in the C code and is therefore modelled as
the list length. -/
abbrev Registry := List (String × Int)

/-- `pa_hashmap_get(u->by_origin, origin)`. -/
def registry_get (r : Registry) (origin : String) : Option (String × Int) :=
  r.find? (fun q => q.1 == origin)

/-- module-rtp-recv.c lines 402-512 (session_new), abstracted to its
registry effect: capacity check first (lines 413-416), then sink lookup
(lines 418-421), multicast socket creation (line 436) and sink-input
creation (lines 459-462), each failing without touching the registry;
on success the session is inserted (lines 495-497). -/
def session_new (r : Registry) (origin : String) (now : Int)
    (sink_ok socket_ok sink_input_ok : Bool) :
    Except CreationError Registry :=
  if MAX_SESSIONS ≤ r.length then .error .CapacityExceeded
  else if sink_ok = false then .error .DestinationNotFound
  else if socket_ok = false then .error .SocketError
  else if sink_input_ok = false then .error .SinkInputFailed
  else .ok ((origin, now) :: r)

/-- module-rtp-recv.c lines 514-534 (session_free), abstracted to its
registry effect: the session is removed from the list and the hashmap. -/
def session_free (r : Registry) (origin : String) : Registry :=
  r.eraseP (fun q => q.1 == origin)

/-- One decoded announcement event: either an announcement carrying the
origin, the current time and the success of the collaborator steps of
session creation, or a goodbye for an origin. -/
inductive SapEvent where
  | announce (origin : String) (now : Int)
      (sink_ok socket_ok sink_input_ok : Bool)
  | goodbye (origin : String)
deriving Repr, DecidableEq

/-- module-rtp-recv.c lines 536-574 (sap_event_cb), abstracted to its
registry effect: a goodbye frees the session if its origin is present and
is a no-op otherwise (lines 554-559); an announcement for a known origin
is a keep-alive refreshing only the last-seen timestamp (lines 566-572);
an announcement for an unknown origin attempts `session_new`, leaving the
registry unchanged on failure (lines 562-564). -/
def sap_event_cb (r : Registry) (e : SapEvent) : Registry :=
  match e with
  | .goodbye origin =>
      match registry_get r origin with
      | some _ => session_free r origin
      | none => r
  | .announce origin now sink_ok socket_ok sink_input_ok =>
      match registry_get r origin with
      | some _ => r.map (fun q => if q.1 == origin then (q.1, now) else q)
      | none =>
          match session_new r origin now sink_ok socket_ok sink_input_ok with
          | .ok r2 => r2
          | .error _ => r

/-- Folding `sap_event_cb` over a sequence of announcement events,
starting from the empty registry built by `pa__init`. -/
def run_sap (evs : List SapEvent) : Registry :=
  evs.foldl sap_event_cb []

/-- module-rtp-recv.c lines 576-605 (check_death_event_cb): iterate all
sessions, atomically load `timestamp` (`last_seen`) and free the session
when `last_seen + DEATH_TIMEOUT < now.tv_sec`; then rearm the timer for
`DEATH_TIMEOUT` seconds after the current wall-clock time `tod_usec`.
Returns the surviving sessions and the new timer deadline in usec. -/
def check_death_event_cb (sessions : List (String × Int)) (now_sec : Int)
    (tod_usec : Nat) : List (String × Int) × Nat :=
  (sessions.filter (fun q => if q.2 + DEATH_TIMEOUT < now_sec then false else true),
   tod_usec + DEATH_TIMEOUT.toNat * 1000000)

/-- A freshly allocated jitter buffer, as built by `pa_memblockq_new` in
`session_new`: cursors at 0, empty, bounded by `MEMBLOCKQ_MAXLENGTH`. -/
def freshQ : Memblockq :=
  { read_index := 0, write_index := 0, maxlength := MEMBLOCKQ_MAXLENGTH,
    stored := 0, data := [] }

/-- A freshly created session (payload type 10, 1-byte frames, 48 kHz),
before its first packet. -/
def s0 : Session :=
  { payload := 10, first_packet := false, ssrc := 0, offset := 0,
    frame_size := 1, rate := 48000, memblockq := freshQ,
    smoother := [], timestamp := 0 }

/-- A session already bound to ssrc 77 with expected timestamp 1000 and
its write cursor at `w`. -/
def boundS (w : Int) : Session :=
  { s0 with first_packet := true, ssrc := 77, offset := 1000,
            memblockq := { freshQ with write_index := w, read_index := w } }

/-- A matching packet with timestamp 1000 carrying one 1-byte frame. -/
def pA : RtpPacket := { ssrc := 77, timestamp := 1000, payload_type := 10, payload := [1] }

/-- A matching packet with timestamp 1001 carrying one 1-byte frame. -/
def pB : RtpPacket := { ssrc := 77, timestamp := 1001, payload_type := 10, payload := [2] }

/-- A matching packet with timestamp 1002 carrying one 1-byte frame. -/
def pC : RtpPacket := { ssrc := 77, timestamp := 1002, payload_type := 10, payload := [3] }

/-- A matching packet with timestamp 1005 (a 5-frame gap over `boundS`'s
expected timestamp 1000) carrying one 1-byte frame. -/
def pX : RtpPacket := { ssrc := 77, timestamp := 1005, payload_type := 10, payload := [4] }

end RtpRecv

namespace RtpRecv

/-- C3: for every pair of 32-bit values, timestamp reconciliation computes
the direct signed difference `k` and the single-wraparound difference `j`
and selects whichever has smaller absolute magnitude (the chosen delta is
one of the two and its magnitude is their minimum); in particular for
expected 0xFFFFFFF0 and received 0x00000010 the chosen delta is +32. -/
theorem claim_C3 :
    (∀ e t : Nat, e < U32 → t < U32 →
      cabs (ts_delta e t) =
        min (cabs ((t : Int) - (e : Int))) (cabs ((U32 : Int) - (e : Int) + (t : Int))) ∧
      (ts_delta e t = (t : Int) - (e : Int) ∨
       ts_delta e t = (U32 : Int) - (e : Int) + (t : Int))) ∧
    ts_delta 0xFFFFFFF0 0x00000010 = 32 := by
  constructor
  · intro e t he ht
    constructor
    · simp only [ts_delta, cabs]
      split <;> split <;> split <;> omega
    · unfold ts_delta
      by_cases h : cabs ((t : Int) - (e : Int)) <
          cabs ((U32 : Int) - (e : Int) + (t : Int))
      · exact Or.inl (if_pos h)
      · exact Or.inr (if_neg h)
  · decide

/-- C3 witness: the general part of `claim_C3` applied at the concrete
32-bit pair (0xFFFFFFF0, 0x00000010). -/
theorem claim_C3_witness :
    cabs (ts_delta 4294967280 16) =
      min (cabs ((16 : Int) - (4294967280 : Int)))
          (cabs ((U32 : Int) - (4294967280 : Int) + (16 : Int))) ∧
    (ts_delta 4294967280 16 = (16 : Int) - (4294967280 : Int) ∨
     ts_delta 4294967280 16 = (U32 : Int) - (4294967280 : Int) + (16 : Int)) :=
  claim_C3.1 4294967280 16 (by decide) (by decide)

/-- C1: evaluation of the rate controller at a state whose correction
exceeds 20% of the rate (48 kHz rate, 500 ms target, 2 s measured
latency gives fix_samples = 14400 > 9600): the anomaly is logged, yet —
contrary to the claim and to the log message itself — the correction IS
applied: the rate does not stay at 48000 but becomes 62400, and that
rate is propagated to the resampler. -/
theorem claim_C1_eval :
    (rate_update 2000000 0 0 0 500000 48000).fix_samples = 14400 ∧
    48000 < 5 * (rate_update 2000000 0 0 0 500000 48000).fix_samples ∧
    (rate_update 2000000 0 0 0 500000 48000).anomaly = true ∧
    (rate_update 2000000 0 0 0 500000 48000).rate = 62400 ∧
    (rate_update 2000000 0 0 0 500000 48000).rate ≠ 48000 ∧
    (rate_update 2000000 0 0 0 500000 48000).resampler_rate = 62400 := by
  decide

/-- C2 counterexample: an in-bounds update with measured latency (0)
below the intended latency (500 ms) at rate 48000: fix_samples = 4800,
no anomaly — yet the rate is not increased to 48000 + 4800 = 52800 as the
claim states; the code decreases it to 43200. -/
theorem claim_C2_counterexample :
    (rate_update 0 0 0 0 500000 48000).anomaly = false ∧
    (rate_update 0 0 0 0 500000 48000).latency < 500000 ∧
    (rate_update 0 0 0 0 500000 48000).fix_samples = 4800 ∧
    (rate_update 0 0 0 0 500000 48000).rate = 43200 ∧
    (rate_update 0 0 0 0 500000 48000).rate ≠ 48000 + 4800 := by
  decide

/-- C2 (amended): for every rate update whose correction is within
bounds (no anomaly), if the measured latency is below intended_latency
the current rate is DECREASED by fix_samples, and if it is above
intended_latency it is INCREASED by fix_samples (uint32 arithmetic), and
the new rate is propagated to the resampling stage. -/
theorem claim_C2_amended (wi ri rd sd il rate : Nat) (hr : rate < U32)
    (hb : (rate_update wi ri rd sd il rate).anomaly = false) :
    ((rate_update wi ri rd sd il rate).latency < il →
      (rate_update wi ri rd sd il rate).rate =
        rate - (rate_update wi ri rd sd il rate).fix_samples) ∧
    (il < (rate_update wi ri rd sd il rate).latency →
      (rate_update wi ri rd sd il rate).rate =
        (rate + (rate_update wi ri rd sd il rate).fix_samples) % U32) ∧
    (rate_update wi ri rd sd il rate).resampler_rate =
      (rate_update wi ri rd sd il rate).rate := by
  simp only [rate_update, decide_eq_false_iff_not, not_lt] at hb ⊢
  refine ⟨?_, ?_, trivial⟩
  · intro hlt
    rw [if_pos hlt]
    simp only [U32] at hb hr ⊢
    omega
  · intro hgt
    rw [if_neg (by omega)]

/-- C2 witness: `claim_C2_amended` applied at the concrete in-bounds
state of the counterexample (rate 48000, target 500 ms, latency 0). -/
theorem claim_C2_amended_witness :
    ((rate_update 0 0 0 0 500000 48000).latency < 500000 →
      (rate_update 0 0 0 0 500000 48000).rate =
        48000 - (rate_update 0 0 0 0 500000 48000).fix_samples) ∧
    (500000 < (rate_update 0 0 0 0 500000 48000).latency →
      (rate_update 0 0 0 0 500000 48000).rate =
        (48000 + (rate_update 0 0 0 0 500000 48000).fix_samples) % U32) ∧
    (rate_update 0 0 0 0 500000 48000).resampler_rate =
      (rate_update 0 0 0 0 500000 48000).rate :=
  claim_C2_amended 0 0 0 0 500000 48000 (by decide) (by decide)

/-- One announcement event cannot push the registry past the session
limit. -/
theorem sap_event_cb_length (r : Registry) (e : SapEvent)
    (h : r.length ≤ MAX_SESSIONS) : (sap_event_cb r e).length ≤ MAX_SESSIONS := by
  cases e with
  | goodbye origin =>
      simp only [sap_event_cb]
      cases registry_get r origin with
      | none => exact h
      | some q =>
          exact le_trans (List.length_eraseP_le r) h
  | announce origin now sink_ok socket_ok sink_input_ok =>
      simp only [sap_event_cb]
      cases hg : registry_get r origin with
      | some q => simpa using h
      | none =>
          simp only [session_new]
          by_cases hcap : MAX_SESSIONS ≤ r.length
          · simp [hcap, h]
          · by_cases h1 : sink_ok = false
            · simp [hcap, h1, h]
            · by_cases h2 : socket_ok = false
              · simp [hcap, h1, h2, h]
              · by_cases h3 : sink_input_ok = false
                · simp [hcap, h1, h2, h3, h]
                · rw [if_neg hcap, if_neg h1, if_neg h2, if_neg h3]
                  simp only [List.length_cons]
                  omega

/-- C4: for every sequence of announcement events (starting from the
empty registry built at module load) the registry never holds more than
MAX_SESSIONS = 16 sessions; session creation at the maximum fails with
CapacityExceeded, and an announcement for an unknown origin at the
maximum leaves the registry unchanged; a goodbye whose origin is not in
the registry is a no-op on the registry. -/
theorem claim_C4 :
    (∀ evs : List SapEvent, (run_sap evs).length ≤ MAX_SESSIONS) ∧
    (∀ (r : Registry) (origin : String) (now : Int) (a b c : Bool),
      MAX_SESSIONS ≤ r.length →
      session_new r origin now a b c = .error .CapacityExceeded) ∧
    (∀ (r : Registry) (origin : String) (now : Int) (a b c : Bool),
      MAX_SESSIONS ≤ r.length → registry_get r origin = none →
      sap_event_cb r (.announce origin now a b c) = r) ∧
    (∀ (r : Registry) (origin : String),
      registry_get r origin = none →
      sap_event_cb r (.goodbye origin) = r) := by
  refine ⟨?_, ?_, ?_, ?_⟩
  · intro evs
    suffices hgen : ∀ (l : List SapEvent) (r : Registry),
        r.length ≤ MAX_SESSIONS → (l.foldl sap_event_cb r).length ≤ MAX_SESSIONS by
      exact hgen evs [] (by simp [MAX_SESSIONS])
    intro l
    induction l with
    | nil => intro r h; simpa using h
    | cons e rest ih =>
        intro r h
        exact ih (sap_event_cb r e) (sap_event_cb_length r e h)
  · intro r origin now a b c hcap
    simp [session_new, hcap]
  · intro r origin now a b c hcap hget
    simp [sap_event_cb, hget, session_new, hcap]
  · intro r origin hget
    simp [sap_event_cb, hget]

/-- C4 witness: `claim_C4` applied at concrete inputs — a singleton
event sequence, and a registry of 16 sessions that does not contain
origin "x". -/
theorem claim_C4_witness :
    (run_sap [SapEvent.announce "a" 0 true true true]).length ≤ MAX_SESSIONS ∧
    session_new (List.replicate 16 ("s", (0 : Int))) "x" 0 true true true =
      .error .CapacityExceeded ∧
    sap_event_cb (List.replicate 16 ("s", (0 : Int)))
      (.announce "x" 0 true true true) = List.replicate 16 ("s", (0 : Int)) ∧
    sap_event_cb (List.replicate 16 ("s", (0 : Int))) (.goodbye "x") =
      List.replicate 16 ("s", (0 : Int)) :=
  ⟨claim_C4.1 [SapEvent.announce "a" 0 true true true],
   claim_C4.2.1 (List.replicate 16 ("s", (0 : Int))) "x" 0 true true true (by decide),
   claim_C4.2.2.1 (List.replicate 16 ("s", (0 : Int))) "x" 0 true true true
     (by decide) (by decide),
   claim_C4.2.2.2 (List.replicate 16 ("s", (0 : Int))) "x" (by decide)⟩

/-- C5: a packet whose decoded payload type differs from the session's
configured payload type is dropped before any state change: buffer
occupancy, write cursor, expected timestamp, the smoother sample list
and the last-seen timestamp are all unchanged (indeed the whole session
state is unchanged). -/
theorem claim_C5 (cookie now_usec : Nat) (now_sec : Int)
    (s : Session) (pkt : RtpPacket)
    (h : pkt.payload_type ≠ s.payload) :
    (rtpoll_work_cb cookie now_usec now_sec s pkt).s.memblockq.stored =
      s.memblockq.stored ∧
    (rtpoll_work_cb cookie now_usec now_sec s pkt).s.memblockq.write_index =
      s.memblockq.write_index ∧
    (rtpoll_work_cb cookie now_usec now_sec s pkt).s.offset = s.offset ∧
    (rtpoll_work_cb cookie now_usec now_sec s pkt).s.smoother = s.smoother ∧
    (rtpoll_work_cb cookie now_usec now_sec s pkt).s.timestamp = s.timestamp ∧
    (rtpoll_work_cb cookie now_usec now_sec s pkt).s = s := by
  have h2 : s.payload ≠ pkt.payload_type := fun he => h he.symm
  simp [rtpoll_work_cb, h2]

/-- C5 witness: `claim_C5` applied to the fresh session `s0` (payload
type 10) and a concrete packet of payload type 11. -/
theorem claim_C5_witness :
    (rtpoll_work_cb 0 0 0 s0
      { ssrc := 1, timestamp := 2, payload_type := 11, payload := [5] }).s.memblockq.stored =
      s0.memblockq.stored ∧
    (rtpoll_work_cb 0 0 0 s0
      { ssrc := 1, timestamp := 2, payload_type := 11, payload := [5] }).s.memblockq.write_index =
      s0.memblockq.write_index ∧
    (rtpoll_work_cb 0 0 0 s0
      { ssrc := 1, timestamp := 2, payload_type := 11, payload := [5] }).s.offset = s0.offset ∧
    (rtpoll_work_cb 0 0 0 s0
      { ssrc := 1, timestamp := 2, payload_type := 11, payload := [5] }).s.smoother = s0.smoother ∧
    (rtpoll_work_cb 0 0 0 s0
      { ssrc := 1, timestamp := 2, payload_type := 11, payload := [5] }).s.timestamp = s0.timestamp ∧
    (rtpoll_work_cb 0 0 0 s0
      { ssrc := 1, timestamp := 2, payload_type := 11, payload := [5] }).s = s0 :=
  claim_C5 0 0 0 s0 { ssrc := 1, timestamp := 2, payload_type := 11, payload := [5] }
    (by decide)

/-- The overrun path keeps occupancy within the maximum. -/
theorem push_or_seek_stored (q : Memblockq) (payload : List Nat)
    (h : q.stored ≤ q.maxlength) :
    (push_or_seek q payload).1.stored ≤ (push_or_seek q payload).1.maxlength := by
  unfold push_or_seek pa_memblockq_push pa_memblockq_seek_relative
  by_cases hc : q.maxlength < q.stored + payload.length
  · simp [hc, h]
  · simp only [if_neg hc]
    simpa using Nat.le_of_not_lt hc

/-- One ingestion step preserves the occupancy bound. -/
theorem ingest_stored_le (cookie nu : Nat) (ns : Int) (s : Session)
    (pkt : RtpPacket) (h : s.memblockq.stored ≤ s.memblockq.maxlength) :
    (rtpoll_work_cb cookie nu ns s pkt).s.memblockq.stored ≤
      (rtpoll_work_cb cookie nu ns s pkt).s.memblockq.maxlength := by
  unfold rtpoll_work_cb
  by_cases h1 : s.payload ≠ pkt.payload_type
  · simp [h1, h]
  · by_cases h2 : s.first_packet = true ∧ s.ssrc ≠ pkt.ssrc
    · simp [h1, h2, h]
    · simp only [if_neg h1, if_neg h2]
      by_cases h3 : s.first_packet = true
      · simp only [if_pos h3]
        exact push_or_seek_stored _ _ (by simpa [pa_memblockq_seek_relative] using h)
      · simp only [if_neg h3]
        exact push_or_seek_stored _ _ (by simpa [pa_memblockq_seek_relative] using h)

/-- C6: on queue overrun — pushing a payload into a jitter buffer that
cannot hold it — the payload bytes are dropped (the data log and the
occupancy are unchanged) but the write cursor is still advanced by
exactly the payload's length and the overrun warning is logged; and over
every sequence of ingested packets, buffer occupancy never exceeds the
configured maximum length. -/
theorem claim_C6 :
    (∀ (q : Memblockq) (payload : List Nat),
      q.maxlength < q.stored + payload.length →
      push_or_seek q payload =
        ({ q with write_index := q.write_index + (payload.length : Int) }, true)) ∧
    (∀ (cookie nu : Nat) (ns : Int) (s : Session) (pkts : List RtpPacket),
      s.memblockq.stored ≤ s.memblockq.maxlength →
      (run_ingest cookie nu ns s pkts).memblockq.stored ≤
        (run_ingest cookie nu ns s pkts).memblockq.maxlength) := by
  constructor
  · intro q payload hfull
    simp [push_or_seek, pa_memblockq_push, pa_memblockq_seek_relative, hfull]
  · intro cookie nu ns s pkts
    induction pkts generalizing s with
    | nil => intro h; simpa [run_ingest] using h
    | cons pkt rest ih =>
        intro h
        have hstep := ingest_stored_le cookie nu ns s pkt h
        simpa [run_ingest] using ih _ hstep

/-- C6 witness: `claim_C6` applied to a concrete full buffer (occupancy
at `MEMBLOCKQ_MAXLENGTH`) with a 1-byte payload, and to the fresh
session with a singleton packet list. -/
theorem claim_C6_witness :
    push_or_seek { freshQ with stored := MEMBLOCKQ_MAXLENGTH } [7] =
      ({ freshQ with stored := MEMBLOCKQ_MAXLENGTH, write_index := 0 + ((1 : Nat) : Int) },
       true) ∧
    (run_ingest 0 0 0 s0 [pA]).memblockq.stored ≤
      (run_ingest 0 0 0 s0 [pA]).memblockq.maxlength :=
  ⟨claim_C6.1 { freshQ with stored := MEMBLOCKQ_MAXLENGTH } [7] (by decide),
   claim_C6.2 0 0 0 s0 [pA] (by decide)⟩

/-- C7: the first accepted packet (matching payload type, session not yet
bound) binds the stream id to that packet's ssrc and the remainder of
the pipeline runs exactly as from the state whose expected timestamp was
initialized to that packet's timestamp; once bound, the stream id never
changes under any further packet; and a packet whose ssrc differs from
the bound stream id is discarded with the session state — buffer and
timing included — entirely unchanged. -/
theorem claim_C7 :
    (∀ (cookie nu : Nat) (ns : Int) (s : Session) (pkt : RtpPacket),
      s.first_packet = false → s.payload = pkt.payload_type →
      (rtpoll_work_cb cookie nu ns s pkt).s.first_packet = true ∧
      (rtpoll_work_cb cookie nu ns s pkt).s.ssrc = pkt.ssrc ∧
      (rtpoll_work_cb cookie nu ns s pkt).s =
        (rtpoll_work_cb cookie nu ns
          { s with first_packet := true, ssrc := pkt.ssrc,
                   offset := pkt.timestamp } pkt).s) ∧
    (∀ (cookie nu : Nat) (ns : Int) (s : Session) (pkt : RtpPacket),
      s.first_packet = true →
      (rtpoll_work_cb cookie nu ns s pkt).s.ssrc = s.ssrc) ∧
    (∀ (cookie nu : Nat) (ns : Int) (s : Session) (pkt : RtpPacket),
      s.first_packet = true → pkt.ssrc ≠ s.ssrc →
      (rtpoll_work_cb cookie nu ns s pkt).s = s ∧
      (rtpoll_work_cb cookie nu ns s pkt).ret = 0) := by
  refine ⟨?_, ?_, ?_⟩
  · intro cookie nu ns s pkt hf hp
    simp [rtpoll_work_cb, hf, hp]
  · intro cookie nu ns s pkt hf
    by_cases h1 : s.payload ≠ pkt.payload_type
    · simp [rtpoll_work_cb, h1]
    · by_cases h2 : s.ssrc ≠ pkt.ssrc
      · simp [rtpoll_work_cb, h1, h2, hf]
      · simp [rtpoll_work_cb, h1, h2, hf]
  · intro cookie nu ns s pkt hf hs
    have hs2 : s.ssrc ≠ pkt.ssrc := fun he => hs he.symm
    by_cases h1 : s.payload ≠ pkt.payload_type
    · simp [rtpoll_work_cb, h1]
    · simp [rtpoll_work_cb, h1, hf, hs2]

/-- C7 witness: `claim_C7` applied at concrete inputs — binding on the
fresh session `s0` with packet `pA`, ssrc immutability on the bound
session, and discard of a foreign packet (ssrc 99 against bound ssrc
77). -/
theorem claim_C7_witness :
    ((rtpoll_work_cb 0 0 0 s0 pA).s.first_packet = true ∧
     (rtpoll_work_cb 0 0 0 s0 pA).s.ssrc = pA.ssrc ∧
     (rtpoll_work_cb 0 0 0 s0 pA).s =
       (rtpoll_work_cb 0 0 0
         { s0 with first_packet := true, ssrc := pA.ssrc,
                   offset := pA.timestamp } pA).s) ∧
    ((rtpoll_work_cb 0 0 0 (boundS 0) pB).s.ssrc = (boundS 0).ssrc) ∧
    ((rtpoll_work_cb 0 0 0 (boundS 0)
        { ssrc := 99, timestamp := 1000, payload_type := 10, payload := [6] }).s =
       boundS 0 ∧
     (rtpoll_work_cb 0 0 0 (boundS 0)
        { ssrc := 99, timestamp := 1000, payload_type := 10, payload := [6] }).ret = 0) :=
  ⟨claim_C7.1 0 0 0 s0 pA (by decide) (by decide),
   claim_C7.2.1 0 0 0 (boundS 0) pB (by decide),
   claim_C7.2.2 0 0 0 (boundS 0)
     { ssrc := 99, timestamp := 1000, payload_type := 10, payload := [6] }
     (by decide) (by decide)⟩

/-- C8 counterexample: on a fresh (not yet bound) session, ingesting the
1-frame packets with timestamps [1000, 1001, 1002] in that order and in
the order [1001, 1000, 1002] does NOT yield the same final buffer
content: the first accepted packet re-bases the expected timestamp, so
the second order places every payload one frame earlier (at index 2 the
first order holds byte 3, the second order silence). -/
theorem claim_C8_counterexample :
    ¬ (∀ i : Int,
        readAt (run_ingest 0 0 0 s0 [pA, pB, pC]).memblockq.data i =
        readAt (run_ingest 0 0 0 s0 [pB, pA, pC]).memblockq.data i) :=
  fun h => absurd (h 2) (by decide)

/-- C8 (amended): on a session already bound (expected timestamp 1000,
matching ssrc, write cursor at any position `w`), ingesting the 1-frame
packets with timestamps [1000, 1001, 1002] in that order and in the
order [1001, 1000, 1002] yields the same final jitter buffer content:
the timestamp-driven relative seek places each payload at the same
buffer offset in both orders. -/
theorem claim_C8_amended (w i : Int) :
    readAt (run_ingest 0 0 0 (boundS w) [pA, pB, pC]).memblockq.data i =
    readAt (run_ingest 0 0 0 (boundS w) [pB, pA, pC]).memblockq.data i := by
  simp only [run_ingest, List.foldl, rtpoll_work_cb, boundS, s0, freshQ, pA, pB, pC,
    ts_delta, cabs, U32, U64, MEMBLOCKQ_MAXLENGTH, pa_memblockq_seek_relative,
    push_or_seek, pa_memblockq_push, writeLog, pa_bytes_to_usec]
  norm_num
  simp only [readAt]
  split_ifs <;> omega

/-- C9 counterexample: on the bound session (expected timestamp 1000), a
packet with timestamp 1005 carrying 1 frame leaves the expected
timestamp at 1006 = packet timestamp + 1, not at 1001 = previous
expected timestamp + 1 as the claim states. -/
theorem claim_C9_counterexample :
    (rtpoll_work_cb 0 0 0 (boundS 0) pX).s.offset = 1006 ∧
    ¬ ((rtpoll_work_cb 0 0 0 (boundS 0) pX).s.offset =
        ((boundS 0).offset + pX.payload.length / (boundS 0).frame_size) % U32) := by
  decide

/-- C9 (amended): after each accepted packet is appended, the expected
timestamp equals the PACKET's timestamp plus the number of sample frames
in the payload, modulo 2^32 (which coincides with advancing the previous
expected timestamp only when the packet arrived exactly in sequence). -/
theorem claim_C9_amended (cookie nu : Nat) (ns : Int) (s : Session)
    (pkt : RtpPacket) (h1 : s.payload = pkt.payload_type)
    (h2 : s.first_packet = true → s.ssrc = pkt.ssrc) :
    (rtpoll_work_cb cookie nu ns s pkt).s.offset =
      (pkt.timestamp + (pkt.payload.length / s.frame_size) % U32) % U32 := by
  by_cases hf : s.first_packet = true
  · simp [rtpoll_work_cb, h1, hf, h2 hf]
  · simp [rtpoll_work_cb, h1, hf]

/-- C9 witness: `claim_C9_amended` applied to the bound session and the
concrete gap packet `pX` (timestamp 1005, one 1-byte frame). -/
theorem claim_C9_amended_witness :
    (rtpoll_work_cb 0 0 0 (boundS 0) pX).s.offset =
      (pX.timestamp + (pX.payload.length / (boundS 0).frame_size) % U32) % U32 :=
  claim_C9_amended 0 0 0 (boundS 0) pX (by decide) (fun _ => by decide)

/-- C10: on each death-sweep run, a session is in the surviving list if
and only if it was present and its atomically loaded last-seen is NOT
older than DEATH_TIMEOUT relative to `now` (that is, a session is
destroyed exactly when now - last_seen > DEATH_TIMEOUT), and the sweep
timer is rearmed to fire DEATH_TIMEOUT seconds after the current
wall-clock time, regardless of how many sessions were reaped. -/
theorem claim_C10 (L : List (String × Int)) (now_sec : Int) (tod_usec : Nat) :
    (∀ q : String × Int,
      q ∈ (check_death_event_cb L now_sec tod_usec).1 ↔
        (q ∈ L ∧ ¬ (DEATH_TIMEOUT < now_sec - q.2))) ∧
    (check_death_event_cb L now_sec tod_usec).2 =
      tod_usec + DEATH_TIMEOUT.toNat * 1000000 := by
  constructor
  · intro q
    simp only [check_death_event_cb, List.mem_filter]
    constructor
    · rintro ⟨hm, hp⟩
      refine ⟨hm, ?_⟩
      by_cases hc : q.2 + DEATH_TIMEOUT < now_sec
      · simp [hc] at hp
      · omega
    · rintro ⟨hm, hp⟩
      refine ⟨hm, ?_⟩
      have hc : ¬ (q.2 + DEATH_TIMEOUT < now_sec) := by omega
      simp [hc]
  · rfl

/-- C10 witness: `claim_C10` applied to a concrete two-session list at
now = 100 s — the session last seen at second 0 is reaped (100 - 0 > 20),
the one last seen at second 95 survives — with the timer rearmed to
7 + 20000000 usec. -/
theorem claim_C10_witness :
    (("old", (0 : Int)) ∈
        (check_death_event_cb [("old", 0), ("new", 95)] 100 7).1 ↔
      (("old", (0 : Int)) ∈ [("old", (0 : Int)), ("new", (95 : Int))] ∧
        ¬ (DEATH_TIMEOUT < (100 : Int) - 0))) ∧
    (check_death_event_cb [("old", 0), ("new", 95)] 100 7).2 =
      7 + DEATH_TIMEOUT.toNat * 1000000 :=
  ⟨(claim_C10 [("old", 0), ("new", 95)] 100 7).1 ("old", 0),
   (claim_C10 [("old", 0), ("new", 95)] 100 7).2⟩

end RtpRecv
